import Mathlib

/-!
Shallow embedding of `tgpyrate.py` (TGpyrate): a one-shot locate / archive /
upload pipeline.  Filesystem, process table and network behaviour are
abstracted as oracles (`Env`, `List Process`, `Net`); every function below
mirrors the control flow of the corresponding Python function.
-/

namespace TGpyrate

/-- Filesystem paths, abstracted as strings. -/
abbrev Path := String

/-- A running process as seen by `psutil.process_iter(['name'])`:
its reported name and the path of its executable (`process.exe()`). -/
structure Process where
  name : String
  exe : Path
deriving DecidableEq

/-- Outcome of a single `opened_tar.add(f, recursive=False)` call:
it returns normally, raises `PermissionError`, or raises any other
exception. -/
inductive AddOutcome where
  | ok
  | permError
  | otherError
deriving DecidableEq

/-- One step of the recursive walk `loc.rglob('*')`: either the walk yields
a filesystem entry, or the walk itself raises (outside the `try` that
guards only the `add` call). -/
inductive WalkItem where
  | entry (f : Path)
  | walkError
deriving DecidableEq

/-- The host environment: directory-existence test (`Path.is_dir`), the
sequence produced by walking a directory (`Path.rglob`), the result of
attempting to archive an entry (`tarfile.TarFile.add`), and the parent
directory of a path (`Path.parent`). -/
structure Env where
  isDir : Path → Bool
  walk : Path → List WalkItem
  addResult : Path → AddOutcome
  parent : Path → Path

/-- `pgrep(name)`: the processes whose reported name equals `name`,
in process-table order. -/
def pgrep (procs : List Process) (name : String) : List Process :=
  procs.filter (fun p => p.name == name)

/-- `find_portable()`: for each running `Telegram.exe`, the parent directory
of its executable, appended unless that directory is already in the
candidate list `locs` (the static list at call time); no deduplication is
performed among the results themselves. -/
def find_portable (env : Env) (procs : List Process) (locs : List Path) :
    List Path :=
  (pgrep procs "Telegram.exe").filterMap (fun p =>
    let exe_parent := env.parent p.exe
    if exe_parent ∈ locs then none else some exe_parent)

/-- The candidate list after the start of `init()`: the static
`installation_locations`, extended with `find_portable()` when portable
detection is enabled.  `find_portable` is evaluated before `extend`, so
its membership test sees only the static list. -/
def candidates (env : Env) (procs : List Process) (static : List Path)
    (portableDetection : Bool) : List Path :=
  if portableDetection then static ++ find_portable env procs static
  else static

/-- The loop of `init()` that builds `installations`: the candidates that
exist as directories, in order, with multiplicity. -/
def installationsOf (env : Env) (cands : List Path) : List Path :=
  cands.filter env.isDir

/-- `init()`: build `installations`; `exit(1)` when it is empty. -/
def init (env : Env) (procs : List Process) (static : List Path)
    (portableDetection : Bool) : Except Nat (List Path) :=
  let installations :=
    installationsOf env (candidates env procs static portableDetection)
  if installations = [] then Except.error 1 else Except.ok installations

/-- Tar open mode chosen by `tgpyrate()`: plain write mode `'w'`, or
gzip write mode `'w:gz'` with a compression level. -/
inductive TarMode where
  | plain
  | gz (compresslevel : Nat)
deriving DecidableEq

/-- Python truthiness of `GZIP_COMP_LEVEL` (an optional integer):
`None` and `0` are falsy, every other integer is truthy. -/
def gzipTruthy : Option Nat → Bool
  | none => false
  | some n => n != 0

/-- The `tarfile.open` mode selection in `tgpyrate()`:
`if GZIP_COMP_LEVEL: open('w:gz', compresslevel=GZIP_COMP_LEVEL)
else: open('w')`. -/
def tarOpenMode (g : Option Nat) : TarMode :=
  if gzipTruthy g then TarMode.gz (g.getD 0) else TarMode.plain

/-- `SFTP_DEST`, computed once at module import from
`platform.platform()` and the startup timestamp. -/
def sftpDest (platformDesc timestamp : String) : String :=
  platformDesc ++ "-" ++ timestamp ++ ".tar"

/-- The walk items seen by the archiver loop: for each located directory in
order, the items its recursive walk yields. -/
def walkItems (env : Env) (installations : List Path) : List WalkItem :=
  installations.flatMap env.walk

/-- The entries (successful walk yields) among a list of walk items. -/
def entryPaths : List WalkItem → List Path
  | [] => []
  | WalkItem.entry f :: rest => f :: entryPaths rest
  | WalkItem.walkError :: rest => entryPaths rest

/-- The archiver loop of `tgpyrate()`: for each walk item, attempt
`opened_tar.add(f, recursive=False)` inside a `try` that catches only
`PermissionError` (skip and continue).  A walk-level exception, or any
non-permission exception from `add`, propagates and aborts the run.
Returns the archive contents, or an aborting exception. -/
def addLoop (env : Env) (acc : List Path) : List WalkItem → Except Unit (List Path)
  | [] => Except.ok acc
  | WalkItem.walkError :: _ => Except.error ()
  | WalkItem.entry f :: rest =>
    match env.addResult f with
    | AddOutcome.ok => addLoop env (acc ++ [f]) rest
    | AddOutcome.permError => addLoop env acc rest
    | AddOutcome.otherError => Except.error ()

/-- The whole archiving stage over the located installations. -/
def buildArchive (env : Env) (installations : List Path) :
    Except Unit (List Path) :=
  addLoop env [] (walkItems env installations)

/-- Network oracle for `send_file`: whether `paramiko.Transport((host, port))`
succeeds, whether `connect(username=..., password=...)` (authentication)
succeeds, and whether `sftp.putfo(file, dest)` succeeds. -/
structure Net where
  transportOk : Bool
  authOk : Bool
  putOk : Bool

/-- Observable actions of `send_file`, in execution order. -/
inductive SendEvent where
  | transportAttempt
  | authAttempt
  | putAttempt
  | sftpClose
  | transportClose
deriving DecidableEq

/-- How a stage (or the whole run) ends: normal return, `exit(n)`, or an
uncaught exception. -/
inductive Outcome where
  | success
  | exitCode (n : Nat)
  | unhandled
deriving DecidableEq

/-- `send_file(...)`: `try: Transport(...) except Exception: exit(1)`;
then `connect` (uncaught on failure), `from_transport`, `putfo` (uncaught
on failure), then `sftp.close()` and `ssh_transport.close()` in that
order — the closes run only if `putfo` returned normally, there is no
`finally`. -/
def send_file (net : Net) : List SendEvent × Outcome :=
  if !net.transportOk then
    ([SendEvent.transportAttempt], Outcome.exitCode 1)
  else if !net.authOk then
    ([SendEvent.transportAttempt, SendEvent.authAttempt], Outcome.unhandled)
  else if !net.putOk then
    ([SendEvent.transportAttempt, SendEvent.authAttempt,
      SendEvent.putAttempt], Outcome.unhandled)
  else
    ([SendEvent.transportAttempt, SendEvent.authAttempt,
      SendEvent.putAttempt, SendEvent.sftpClose, SendEvent.transportClose],
     Outcome.success)

/-- Observable result of a whole run of `main()` (`init()` then
`tgpyrate()`). -/
structure RunResult where
  outcome : Outcome
  tarMode : Option TarMode
  archive : Option (List Path)
  sendEvents : List SendEvent
  destUsed : Option String
  tempClosed : Bool
deriving DecidableEq

/-- `main()`: `init()` then `tgpyrate()`.  `exit(1)` in `init` propagates as
`SystemExit`, so the archiver and uploader never run.  Inside `tgpyrate()`,
`temp_file.close()` is the last statement and runs only when `send_file`
returns normally. -/
def run (env : Env) (procs : List Process) (static : List Path)
    (portableDetection : Bool) (gzip : Option Nat) (net : Net)
    (platformDesc timestamp : String) : RunResult :=
  match init env procs static portableDetection with
  | Except.error n =>
    { outcome := Outcome.exitCode n, tarMode := none, archive := none,
      sendEvents := [], destUsed := none, tempClosed := false }
  | Except.ok installations =>
    match buildArchive env installations with
    | Except.error _ =>
      { outcome := Outcome.unhandled, tarMode := some (tarOpenMode gzip),
        archive := none, sendEvents := [], destUsed := none,
        tempClosed := false }
    | Except.ok contents =>
      let r := send_file net
      { outcome := r.2, tarMode := some (tarOpenMode gzip),
        archive := some contents, sendEvents := r.1,
        destUsed := some (sftpDest platformDesc timestamp),
        tempClosed := decide (r.2 = Outcome.success) }

/-! Concrete fixtures used to instantiate the theorems below. -/

/-- An environment in which no path is a directory. -/
def envNone : Env :=
  { isDir := fun _ => false, walk := fun _ => [],
    addResult := fun _ => AddOutcome.ok, parent := fun _ => "" }

/-- An environment in which exactly `/h` is a directory, with an empty walk. -/
def envDirOnly : Env :=
  { isDir := fun p => p == "/h", walk := fun _ => [],
    addResult := fun _ => AddOutcome.ok, parent := fun _ => "" }

/-- An environment whose walk of `/h` yields three entries, of which
`/h/b` raises a permission error when added. -/
def envArch : Env :=
  { isDir := fun p => p == "/h",
    walk := fun p =>
      if p == "/h" then
        [WalkItem.entry "/h/a", WalkItem.entry "/h/b", WalkItem.entry "/h/c"]
      else [],
    addResult := fun f =>
      if f == "/h/b" then AddOutcome.permError else AddOutcome.ok,
    parent := fun _ => "" }

/-- Like `envArch`, but adding `/h/c` raises a non-permission exception. -/
def envArchBad : Env :=
  { isDir := fun p => p == "/h",
    walk := fun p =>
      if p == "/h" then
        [WalkItem.entry "/h/a", WalkItem.entry "/h/b", WalkItem.entry "/h/c"]
      else [],
    addResult := fun f =>
      if f == "/h/b" then AddOutcome.permError
      else if f == "/h/c" then AddOutcome.otherError
      else AddOutcome.ok,
    parent := fun _ => "" }

/-- A running portable Telegram process. -/
def procTele : Process := { name := "Telegram.exe", exe := "C:/pt/Telegram.exe" }

/-- An environment for the portable-detection fixtures: the portable
directory `C:/pt` exists, its walk yields one entry, and the parent of the
portable executable is `C:/pt`. -/
def envPort : Env :=
  { isDir := fun p => p == "C:/pt",
    walk := fun p => if p == "C:/pt" then [WalkItem.entry "C:/pt/f"] else [],
    addResult := fun _ => AddOutcome.ok,
    parent := fun e => if e == "C:/pt/Telegram.exe" then "C:/pt" else "" }

/-- Two running portable Telegram processes sharing one directory. -/
def procsTwo : List Process := [procTele, procTele]

/-- A network where transport, authentication and upload all succeed. -/
def netAllOk : Net := { transportOk := true, authOk := true, putOk := true }

/-- A network where the upload write raises. -/
def netPutFails : Net := { transportOk := true, authOk := true, putOk := false }

/-! Helper lemmas. -/

lemma installationsOf_eq_nil (env : Env) (cands : List Path)
    (h : ∀ loc ∈ cands, env.isDir loc = false) :
    installationsOf env cands = [] := by
  rw [installationsOf, List.filter_eq_nil_iff]
  intro a ha
  simp [h a ha]

/-! Claim theorems. -/

/-- Claim C1: when zero candidate locations exist as directories, the run
terminates with exit status 1 in the locator stage and `send_file` is never
reached, so no network connection attempt is made. -/
theorem c1_no_install_exit1_no_network
    (env : Env) (procs : List Process) (static : List Path) (pd : Bool)
    (gzip : Option Nat) (net : Net) (p t : String)
    (h : ∀ loc ∈ candidates env procs static pd, env.isDir loc = false) :
    (run env procs static pd gzip net p t).outcome = Outcome.exitCode 1 ∧
    (run env procs static pd gzip net p t).sendEvents = [] ∧
    (run env procs static pd gzip net p t).destUsed = none := by
  have hnil : installationsOf env (candidates env procs static pd) = [] :=
    installationsOf_eq_nil env _ h
  simp [run, init, hnil]

/-- Witness for C1 at a concrete environment with one non-existing
candidate. -/
theorem c1_witness :
    (∀ loc ∈ candidates envNone [] ["/h"] false, envNone.isDir loc = false) ∧
    (run envNone [] ["/h"] false none netAllOk "P" "T").outcome =
      Outcome.exitCode 1 ∧
    (run envNone [] ["/h"] false none netAllOk "P" "T").sendEvents = [] ∧
    (run envNone [] ["/h"] false none netAllOk "P" "T").destUsed = none :=
  ⟨by decide,
   c1_no_install_exit1_no_network envNone [] ["/h"] false none netAllOk
     "P" "T" (by decide)⟩

/-- Claim C2: when at least one candidate exists as a directory, `init`
returns exactly the existing subset of the candidate list: membership in the
installation set is equivalent to being a candidate that is a directory. -/
theorem c2_installations_eq_existing_subset
    (env : Env) (procs : List Process) (static : List Path) (pd : Bool)
    (h : ∃ loc ∈ candidates env procs static pd, env.isDir loc = true) :
    init env procs static pd =
      Except.ok ((candidates env procs static pd).filter env.isDir) ∧
    ∀ loc, loc ∈ (candidates env procs static pd).filter env.isDir ↔
      (loc ∈ candidates env procs static pd ∧ env.isDir loc = true) := by
  obtain ⟨loc, hmem, hdir⟩ := h
  have hne : installationsOf env (candidates env procs static pd) ≠ [] := by
    apply List.ne_nil_of_mem (a := loc)
    rw [installationsOf, List.mem_filter]
    exact ⟨hmem, hdir⟩
  constructor
  · rw [init]
    simp only [installationsOf] at hne ⊢
    rw [if_neg hne]
  · intro l
    rw [List.mem_filter]

/-- Witness for C2 at a concrete environment where one of two candidates
exists. -/
theorem c2_witness :
    (∃ loc ∈ candidates envDirOnly [] ["/x", "/h"] false,
      envDirOnly.isDir loc = true) ∧
    init envDirOnly [] ["/x", "/h"] false =
      Except.ok ((candidates envDirOnly [] ["/x", "/h"] false).filter
        envDirOnly.isDir) :=
  ⟨by decide,
   (c2_installations_eq_existing_subset envDirOnly [] ["/x", "/h"] false
     (by decide)).1⟩

/-- Claim C4: a falsy compression toggle opens the tar in plain write mode;
an integer level from 1 to 9 opens it in gzip write mode at that level. -/
theorem c4_compression_mode :
    tarOpenMode none = TarMode.plain ∧
    tarOpenMode (some 0) = TarMode.plain ∧
    ∀ n : Nat, 1 ≤ n → n ≤ 9 → tarOpenMode (some n) = TarMode.gz n := by
  refine ⟨rfl, rfl, ?_⟩
  intro n h1 _
  have hn : gzipTruthy (some n) = true := by
    simp only [gzipTruthy, ne_eq, bne_iff_ne]
    omega
  simp [tarOpenMode, hn]

/-- Witness for C4 at compression level 5. -/
theorem c4_witness :
    1 ≤ 5 ∧ 5 ≤ 9 ∧ tarOpenMode (some 5) = TarMode.gz 5 :=
  ⟨by decide, by decide, c4_compression_mode.2.2 5 (by decide) (by decide)⟩

/-- Claim C5: the remote destination name is
`platform ++ "-" ++ timestamp ++ ".tar"`, it always carries the `.tar`
suffix, the name handed to the uploader is exactly this startup value, and
it does not depend on the compression toggle. -/
theorem c5_dest_name
    (p t : String) (env : Env) (procs : List Process) (static : List Path)
    (pd : Bool) (net : Net) (gzip gzip2 : Option Nat) :
    sftpDest p t = p ++ "-" ++ t ++ ".tar" ∧
    (∃ stem, sftpDest p t = stem ++ ".tar") ∧
    (∀ d, (run env procs static pd gzip net p t).destUsed = some d →
      d = sftpDest p t) ∧
    (run env procs static pd gzip net p t).destUsed =
      (run env procs static pd gzip2 net p t).destUsed := by
  refine ⟨rfl, ⟨p ++ "-" ++ t, rfl⟩, ?_, ?_⟩
  · intro d hd
    cases hinit : init env procs static pd with
    | error n => simp [run, hinit] at hd
    | ok insts =>
      cases harch : buildArchive env insts with
      | error e => simp [run, hinit, harch] at hd
      | ok c =>
        simp [run, hinit, harch] at hd
        exact hd.symm
  · cases hinit : init env procs static pd with
    | error n => simp [run, hinit]
    | ok insts =>
      cases harch : buildArchive env insts with
      | error e => simp [run, hinit, harch]
      | ok c => simp [run, hinit, harch]

/-- Witness for C5: a run that reaches the uploader uses exactly.
`P-T.tar` as the destination name. -/
theorem c5_witness :
    (run envDirOnly [] ["/h"] false none netAllOk "P" "T").destUsed =
      some "P-T.tar" ∧
    "P-T.tar" = sftpDest "P" "T" :=
  ⟨by decide,
   (c5_dest_name "P" "T" envDirOnly [] ["/h"] false netAllOk none
     none).2.2.1 "P-T.tar" (by decide)⟩

/-- Claim C6: a transport-establishment failure exits with code 1 before any
authentication attempt; an authentication failure on an established
transport propagates as an unhandled error. -/
theorem c6_transport_exit_auth_uncaught (net : Net) :
    (net.transportOk = false →
      (send_file net).2 = Outcome.exitCode 1 ∧
      SendEvent.authAttempt ∉ (send_file net).1) ∧
    (net.transportOk = true → net.authOk = false →
      (send_file net).2 = Outcome.unhandled ∧
      (send_file net).1 = [SendEvent.transportAttempt,
        SendEvent.authAttempt]) := by
  constructor
  · intro h
    simp [send_file, h]
  · intro h1 h2
    simp [send_file, h1, h2]

/-- Witness for C6 at a concrete unreachable-transport network and a
concrete failing-authentication network. -/
theorem c6_witness :
    ((⟨false, true, true⟩ : Net).transportOk = false) ∧
    (send_file ⟨false, true, true⟩).2 = Outcome.exitCode 1 ∧
    SendEvent.authAttempt ∉ (send_file ⟨false, true, true⟩).1 ∧
    ((⟨true, false, true⟩ : Net).transportOk = true) ∧
    ((⟨true, false, true⟩ : Net).authOk = false) ∧
    (send_file ⟨true, false, true⟩).2 = Outcome.unhandled :=
  ⟨by decide,
   ((c6_transport_exit_auth_uncaught ⟨false, true, true⟩).1 (by decide)).1,
   ((c6_transport_exit_auth_uncaught ⟨false, true, true⟩).1 (by decide)).2,
   by decide, by decide,
   ((c6_transport_exit_auth_uncaught ⟨true, false, true⟩).2 (by decide)
     (by decide)).1⟩

/-- Counterexample to claim C7 as stated: when the put raises, neither the
session close nor the transport close is performed, so the closes do not
happen "regardless of whether the put succeeded". -/
theorem c7_counterexample :
    (send_file ⟨true, true, false⟩).1 =
      [SendEvent.transportAttempt, SendEvent.authAttempt,
       SendEvent.putAttempt] ∧
    SendEvent.sftpClose ∉ (send_file ⟨true, true, false⟩).1 ∧
    SendEvent.transportClose ∉ (send_file ⟨true, true, false⟩).1 := by
  decide

/-- Amended claim C7: when the put returns normally the uploader closes the
file-transfer session and then the transport, in that order; when the put
raises, neither close is performed. -/
theorem c7_close_order
    (net : Net) (h1 : net.transportOk = true) (h2 : net.authOk = true) :
    (net.putOk = true →
      (send_file net).1 =
        [SendEvent.transportAttempt, SendEvent.authAttempt,
         SendEvent.putAttempt, SendEvent.sftpClose,
         SendEvent.transportClose]) ∧
    (net.putOk = false →
      SendEvent.sftpClose ∉ (send_file net).1 ∧
      SendEvent.transportClose ∉ (send_file net).1) := by
  constructor
  · intro h3
    simp [send_file, h1, h2, h3]
  · intro h3
    simp [send_file, h1, h2, h3]

/-- Witness for the amended C7 at a fully successful network. -/
theorem c7_witness :
    netAllOk.transportOk = true ∧ netAllOk.authOk = true ∧
    netAllOk.putOk = true ∧
    (send_file netAllOk).1 =
      [SendEvent.transportAttempt, SendEvent.authAttempt,
       SendEvent.putAttempt, SendEvent.sftpClose,
       SendEvent.transportClose] :=
  ⟨by decide, by decide, by decide,
   (c7_close_order netAllOk (by decide) (by decide)).1 (by decide)⟩

/-- Counterexample to claim C8 as stated: a run that reaches the uploader
and aborts during the upload write ends with the temporary archive stream
not explicitly closed. -/
theorem c8_counterexample :
    (run envDirOnly [] ["/h"] false none netPutFails "P" "T").outcome =
      Outcome.unhandled ∧
    (run envDirOnly [] ["/h"] false none netPutFails "P" "T").destUsed =
      some "P-T.tar" ∧
    (run envDirOnly [] ["/h"] false none netPutFails "P" "T").tempClosed =
      false := by
  decide

/-- Amended claim C8: the temporary archive stream is explicitly closed
exactly on the runs whose upload call returns normally; a run that aborts
(in the locator, the archiver, or during upload) never executes the
explicit close. -/
theorem c8_temp_closed_iff_success
    (env : Env) (procs : List Process) (static : List Path) (pd : Bool)
    (gzip : Option Nat) (net : Net) (p t : String) :
    (run env procs static pd gzip net p t).tempClosed = true ↔
      (run env procs static pd gzip net p t).outcome = Outcome.success := by
  cases hinit : init env procs static pd with
  | error n => simp [run, hinit]
  | ok insts =>
    cases harch : buildArchive env insts with
    | error e => simp [run, hinit, harch]
    | ok c => simp [run, hinit, harch]

lemma addLoop_ok (env : Env) (items : List WalkItem) :
    ∀ acc : List Path, WalkItem.walkError ∉ items →
    (∀ f ∈ entryPaths items, env.addResult f ≠ AddOutcome.otherError) →
    addLoop env acc items =
      Except.ok (acc ++ (entryPaths items).filter
        (fun f => env.addResult f == AddOutcome.ok)) := by
  induction items with
  | nil => intro acc _ _; simp [addLoop, entryPaths]
  | cons it rest ih =>
    intro acc h1 h2
    cases it with
    | walkError => exact absurd (List.mem_cons_self _ _) h1
    | entry f =>
      have hrest1 : WalkItem.walkError ∉ rest := fun hm =>
        h1 (List.mem_cons_of_mem _ hm)
      have hrest2 : ∀ g ∈ entryPaths rest,
          env.addResult g ≠ AddOutcome.otherError := fun g hg =>
        h2 g (List.mem_cons_of_mem _ hg)
      have hf : env.addResult f ≠ AddOutcome.otherError :=
        h2 f (List.mem_cons_self _ _)
      cases hres : env.addResult f with
      | ok =>
        simp only [addLoop, hres]
        rw [ih (acc ++ [f]) hrest1 hrest2]
        simp [entryPaths, List.filter_cons, hres]
      | permError =>
        simp only [addLoop, hres]
        rw [ih acc hrest1 hrest2]
        simp [entryPaths, List.filter_cons, hres]
      | otherError => exact absurd hres hf

lemma addLoop_error (env : Env) (items : List WalkItem) :
    ∀ acc : List Path,
    (WalkItem.walkError ∈ items ∨
      ∃ f ∈ entryPaths items, env.addResult f = AddOutcome.otherError) →
    addLoop env acc items = Except.error () := by
  induction items with
  | nil =>
    intro acc h
    rcases h with h | ⟨f, hf, _⟩
    · exact absurd h (List.not_mem_nil _)
    · exact absurd hf (List.not_mem_nil _)
  | cons it rest ih =>
    intro acc h
    cases it with
    | walkError => simp [addLoop]
    | entry f =>
      have step : env.addResult f ≠ AddOutcome.otherError →
          (WalkItem.walkError ∈ rest ∨
            ∃ g ∈ entryPaths rest,
              env.addResult g = AddOutcome.otherError) := by
        intro hne
        rcases h with h | ⟨g, hg, hgr⟩
        · rcases List.mem_cons.mp h with heq | hm
          · simp at heq
          · exact Or.inl hm
        · rcases List.mem_cons.mp hg with heq | hm
          · exact absurd (heq ▸ hgr) hne
          · exact Or.inr ⟨g, hm, hgr⟩
      cases hres : env.addResult f with
      | otherError => simp [addLoop, hres]
      | ok =>
        simp only [addLoop, hres]
        exact ih (acc ++ [f]) (step (by rw [hres]; simp))
      | permError =>
        simp only [addLoop, hres]
        exact ih acc (step (by rw [hres]; simp))

/-- Claim C3: over the walk items of the located directories, a permission
error on a single add only skips that entry and the loop continues, so when
no walk-level exception and no non-permission add exception occurs the
archive contains exactly the successfully added entries; any walk-level
exception or non-permission add exception aborts the run. -/
theorem c3_archiver_error_handling (env : Env) (insts : List Path) :
    (WalkItem.walkError ∉ walkItems env insts →
      (∀ f ∈ entryPaths (walkItems env insts),
        env.addResult f ≠ AddOutcome.otherError) →
      buildArchive env insts =
        Except.ok ((entryPaths (walkItems env insts)).filter
          (fun f => env.addResult f == AddOutcome.ok))) ∧
    ((WalkItem.walkError ∈ walkItems env insts ∨
      ∃ f ∈ entryPaths (walkItems env insts),
        env.addResult f = AddOutcome.otherError) →
      buildArchive env insts = Except.error ()) := by
  constructor
  · intro h1 h2
    have h := addLoop_ok env (walkItems env insts) [] h1 h2
    rw [buildArchive, h, List.nil_append]
  · intro h
    exact addLoop_error env (walkItems env insts) [] h

/-- Witness for C3: a walk with one permission-denied entry produces the
archive of the two readable entries; a walk with a non-permission add
failure aborts. -/
theorem c3_witness :
    WalkItem.walkError ∉ walkItems envArch ["/h"] ∧
    (∀ f ∈ entryPaths (walkItems envArch ["/h"]),
      envArch.addResult f ≠ AddOutcome.otherError) ∧
    buildArchive envArch ["/h"] = Except.ok ["/h/a", "/h/c"] ∧
    (∃ f ∈ entryPaths (walkItems envArchBad ["/h"]),
      envArchBad.addResult f = AddOutcome.otherError) ∧
    buildArchive envArchBad ["/h"] = Except.error () :=
  ⟨by decide, by decide,
   ((c3_archiver_error_handling envArch ["/h"]).1 (by decide)
     (by decide)).trans (by rfl),
   by decide,
   (c3_archiver_error_handling envArchBad ["/h"]).2 (Or.inr (by decide))⟩

lemma mem_find_portable (env : Env) (procs : List Process)
    (static : List Path) (d : Path) :
    d ∈ find_portable env procs static ↔
      (d ∉ static ∧
        ∃ p ∈ pgrep procs "Telegram.exe", env.parent p.exe = d) := by
  rw [find_portable, List.mem_filterMap]
  constructor
  · rintro ⟨p, hp, hsome⟩
    by_cases hin : env.parent p.exe ∈ static
    · simp [hin] at hsome
    · simp only [hin, if_neg, ite_false, Option.some.injEq] at hsome
      exact ⟨hsome ▸ hin, p, hp, hsome⟩
  · rintro ⟨hd, p, hp, hpar⟩
    refine ⟨p, hp, ?_⟩
    rw [hpar, if_neg hd]

/-- Claim C9: for every matching running process, the parent directory of
its executable occurs in the portable-scan output if and only if it is not
already in the static candidate list; when it does occur it is part of the
extended candidate list. -/
theorem c9_portable_added_iff_not_static
    (env : Env) (procs : List Process) (static : List Path) (p : Process)
    (hp : p ∈ pgrep procs "Telegram.exe") :
    (env.parent p.exe ∈ find_portable env procs static ↔
      env.parent p.exe ∉ static) ∧
    (env.parent p.exe ∉ static →
      env.parent p.exe ∈ candidates env procs static true) := by
  constructor
  · rw [mem_find_portable]
    constructor
    · rintro ⟨hd, _⟩; exact hd
    · intro hd; exact ⟨hd, p, hp, rfl⟩
  · intro hd
    rw [candidates, if_pos rfl, List.mem_append]
    exact Or.inr ((mem_find_portable env procs static _).mpr
      ⟨hd, p, hp, rfl⟩)

/-- Witness for C9 at one running portable process whose directory is not a
static candidate. -/
theorem c9_witness :
    procTele ∈ pgrep [procTele] "Telegram.exe" ∧
    (envPort.parent procTele.exe ∈ find_portable envPort [procTele] ["/a"] ↔
      envPort.parent procTele.exe ∉ (["/a"] : List Path)) :=
  ⟨by decide,
   (c9_portable_added_iff_not_static envPort [procTele] ["/a"] procTele
     (by decide)).1⟩

lemma count_filterMap_portable (env : Env) (static : List Path) (d : Path)
    (hd : d ∉ static) (l : List Process) :
    List.count d (l.filterMap (fun p =>
      let exe_parent := env.parent p.exe
      if exe_parent ∈ static then none else some exe_parent)) =
    l.countP (fun p => env.parent p.exe == d) := by
  induction l with
  | nil => simp
  | cons a l ih =>
    rw [List.filterMap_cons, List.countP_cons]
    by_cases hin : env.parent a.exe ∈ static
    · have hne : (env.parent a.exe == d) = false := by
        rw [beq_eq_false_iff_ne]
        intro he
        exact hd (he ▸ hin)
      simp only [hin, ite_true, if_pos]
      rw [hne, ih]
      simp
    · simp only [hin, ite_false, if_neg, not_false_iff]
      rw [List.count_cons, ih]

lemma count_le_count_flatMap (f : Path → List WalkItem) (d : Path)
    (e : WalkItem) (he : e ∈ f d) (l : List Path) :
    List.count d l ≤ List.count e (l.flatMap f) := by
  induction l with
  | nil => simp
  | cons a l ih =>
    rw [List.flatMap_cons, List.count_append, List.count_cons]
    by_cases had : a = d
    · subst had
      have h1 : 1 ≤ List.count e (f a) := List.count_pos_iff.mpr he
      simp only [beq_self_eq_true, if_pos]
      omega
    · have hne : (a == d) = false := beq_eq_false_iff_ne.mpr had
      rw [hne]
      simp only [Bool.false_eq_true, if_false]
      omega

/-- Claim C10: the portable scan does not deduplicate its own results: a
shared executable parent directory outside the static list is returned once
per matching process, so it occurs at least twice among the candidates,
at least twice in the installation set when it is a directory, and its walk
items are archived-over at least twice. -/
theorem c10_portable_scan_no_dedup
    (env : Env) (procs : List Process) (static : List Path) (d : Path)
    (hd : d ∉ static)
    (h2 : 2 ≤ (pgrep procs "Telegram.exe").countP
      (fun p => env.parent p.exe == d)) :
    List.count d (find_portable env procs static) =
      (pgrep procs "Telegram.exe").countP (fun p => env.parent p.exe == d) ∧
    2 ≤ List.count d (candidates env procs static true) ∧
    (env.isDir d = true →
      2 ≤ List.count d
        (installationsOf env (candidates env procs static true)) ∧
      ∀ e ∈ env.walk d,
        2 ≤ List.count e (walkItems env
          (installationsOf env (candidates env procs static true)))) := by
  have hfp : List.count d (find_portable env procs static) =
      (pgrep procs "Telegram.exe").countP
        (fun p => env.parent p.exe == d) := by
    rw [find_portable]
    exact count_filterMap_portable env static d hd _
  have hcand : 2 ≤ List.count d (candidates env procs static true) := by
    rw [candidates, if_pos rfl, List.count_append,
        List.count_eq_zero.mpr hd, hfp]
    omega
  refine ⟨hfp, hcand, ?_⟩
  intro hdir
  have hinst : 2 ≤ List.count d
      (installationsOf env (candidates env procs static true)) := by
    rw [installationsOf, List.count_filter hdir]
    exact hcand
  refine ⟨hinst, ?_⟩
  intro e he
  calc 2 ≤ List.count d
        (installationsOf env (candidates env procs static true)) := hinst
    _ ≤ List.count e (walkItems env
        (installationsOf env (candidates env procs static true))) := by
        rw [walkItems]
        exact count_le_count_flatMap env.walk d e he _

/-- Witness for C10: two running processes sharing the portable directory
`C:/pt` put it twice in the candidate list, twice in the installation set,
and its single walk entry twice in the archiver's item sequence. -/
theorem c10_witness :
    ("C:/pt" ∉ (["/a"] : List Path)) ∧
    2 ≤ (pgrep procsTwo "Telegram.exe").countP
      (fun p => envPort.parent p.exe == "C:/pt") ∧
    2 ≤ List.count "C:/pt" (candidates envPort procsTwo ["/a"] true) ∧
    envPort.isDir "C:/pt" = true ∧
    2 ≤ List.count "C:/pt"
      (installationsOf envPort (candidates envPort procsTwo ["/a"] true)) ∧
    WalkItem.entry "C:/pt/f" ∈ envPort.walk "C:/pt" ∧
    2 ≤ List.count (WalkItem.entry "C:/pt/f")
      (walkItems envPort (installationsOf envPort
        (candidates envPort procsTwo ["/a"] true))) :=
  ⟨by decide, by decide,
   (c10_portable_scan_no_dedup envPort procsTwo ["/a"] "C:/pt" (by decide)
     (by decide)).2.1,
   by decide,
   ((c10_portable_scan_no_dedup envPort procsTwo ["/a"] "C:/pt" (by decide)
     (by decide)).2.2 (by decide)).1,
   by decide,
   ((c10_portable_scan_no_dedup envPort procsTwo ["/a"] "C:/pt" (by decide)
     (by decide)).2.2 (by decide)).2 (WalkItem.entry "C:/pt/f")
     (by decide)⟩

end TGpyrate
